import Mathlib

set_option maxHeartbeats 400000

/-!
Shallow embedding of `mavros_extras/src/plugins/log_transfer.cpp`
(class `mavros::extra_plugins::LogTransferPlugin`).

The plugin's member functions are modelled as pure functions from the
plugin's mutable data (`PluginState`) and the values the external
action/service host supplies during the call (the accepted goal,
`isActive()`, `isPreemptRequested()`, and whether `send_message` throws
`std::length_error`) to the updated plugin data together with a trace of
observable effects (messages attempted on the wire, `setPreempted` reports,
published ROS messages, log lines), listed in the order the C++ performs
them.
-/

namespace LogTransfer

/-- Session state enum of `LogTransferPlugin` (log_transfer.cpp lines 40-45).
`GettingLogList` is the spec's `ListActive`; `GettingLogData` is the spec's
`DataActive`. -/
inductive State where
  | Idle
  | GettingLogList
  | GettingLogData
  deriving DecidableEq

/-- One `mavros_msgs::LogListItem` as stored in the `logListItems` stack. -/
structure LogListItem where
  id : Nat
  size : Nat
  deriving DecidableEq

/-- The plugin's mutable session data: the `state` field (initialised to
`State::Idle`) and the `logListItems` stack (modelled as a list, initially
empty). -/
structure PluginState where
  state : State
  logListItems : List LogListItem
  deriving DecidableEq

/-- The plugin data at construction: `state = State::Idle` and an empty
`logListItems` stack. -/
def initialState : PluginState :=
  { state := State.Idle, logListItems := [] }

/-- Goal of the `get_log_list` action (`mavros_msgs::GetLogListGoal`):
a start/end range. -/
structure GetLogListGoal where
  start : Nat
  end_ : Nat
  deriving DecidableEq

/-- Goal of the `get_log` action (`mavros_msgs::GetLogGoal`):
id, offset, count. -/
structure GetLogGoal where
  id : Nat
  offset : Nat
  count : Nat
  deriving DecidableEq

/-- Inbound `LOG_ENTRY` mavlink packet fields used by `handle_log_entry`. -/
structure LOG_ENTRY where
  id : Nat
  num_logs : Nat
  last_log_num : Nat
  time_utc : Nat
  size : Nat
  deriving DecidableEq

/-- Fixed capacity of the `data` array of a `LOG_DATA` mavlink packet
(`ld.data.max_size()` for `std::array<uint8_t, 90>`). -/
def LOG_DATA_max_size : Nat := 90

/-- Inbound `LOG_DATA` mavlink packet fields used by `handle_log_data`.
The wire `data` member is a fixed `std::array` of `LOG_DATA_max_size`
bytes; here it is a list whose length is constrained to that capacity in
the theorems. -/
structure LOG_DATA where
  id : Nat
  ofs : Nat
  count : Nat
  data : List Nat
  deriving DecidableEq

/-- Published `mavros_msgs::LogEntry` message (receipt timestamp omitted:
it comes from the external clock). -/
structure LogEntry where
  id : Nat
  num_logs : Nat
  last_log_num : Nat
  time_utc : Nat
  size : Nat
  deriving DecidableEq

/-- Published `mavros_msgs::LogData` message (receipt timestamp omitted). -/
structure LogData where
  id : Nat
  offset : Nat
  data : List Nat
  deriving DecidableEq

/-- Outbound `LOG_REQUEST_LIST` command payload (target system/component
fields come from the external UAS and are omitted). -/
structure LOG_REQUEST_LIST where
  start : Nat
  end_ : Nat
  deriving DecidableEq

/-- Outbound `LOG_REQUEST_DATA` command payload. -/
structure LOG_REQUEST_DATA where
  id : Nat
  ofs : Nat
  count : Nat
  deriving DecidableEq

/-- Request of the `raw/log_request_list` service
(`mavros_msgs::LogRequestList::Request`). -/
structure LogRequestListRequest where
  start : Nat
  end_ : Nat
  deriving DecidableEq

/-- Request of the `raw/log_request_data` service
(`mavros_msgs::LogRequestData::Request`). -/
structure LogRequestDataRequest where
  id : Nat
  offset : Nat
  count : Nat
  deriving DecidableEq

/-- Response of the `raw/log_request_list` service. -/
structure LogRequestListResponse where
  success : Bool
  deriving DecidableEq

/-- Response of the `raw/log_request_data` service. -/
structure LogRequestDataResponse where
  success : Bool
  deriving DecidableEq

/-- Response of the `raw/log_request_end` service. -/
structure LogRequestEndResponse where
  success : Bool
  deriving DecidableEq

/-- Observable effects of one handler call, in the order the C++ performs
them.  `sentLogRequestList`, `sentLogRequestData` and `sentLogRequestEnd`
record an attempted `send_message` call (the transport observes the attempt
whether or not it then throws `std::length_error`).  `listPreempted` and
`dataPreempted` record `setPreempted(result, text)` calls on
`get_log_list_action_srv` and `get_log_action_srv` respectively, carrying
the result's `success` flag and the reason text; a `setPreempted` call
completes the goal, so the goal is no longer retained as accepted/active
afterwards.  `publishedLogEntry` and `publishedLogData` record
`publish` calls; `logWarn` and `logError` record log lines. -/
inductive Effect where
  | sentLogRequestList (m : LOG_REQUEST_LIST)
  | sentLogRequestData (m : LOG_REQUEST_DATA)
  | sentLogRequestEnd
  | listPreempted (success : Bool) (text : String)
  | dataPreempted (success : Bool) (text : String)
  | publishedLogEntry (m : LogEntry)
  | publishedLogData (m : LogData)
  | logWarn (text : String)
  | logError (text : String)
  deriving DecidableEq

/-- Whether an effect is a `setPreempted` report on the list action. -/
def isListPreempted : Effect → Bool
  | Effect.listPreempted _ _ => true
  | _ => false

/-- Whether an effect is a `setPreempted` report on the data action. -/
def isDataPreempted : Effect → Bool
  | Effect.dataPreempted _ _ => true
  | _ => false

/-- Whether an effect is an attempted wire command send. -/
def isSentCommand : Effect → Bool
  | Effect.sentLogRequestList _ => true
  | Effect.sentLogRequestData _ => true
  | Effect.sentLogRequestEnd => true
  | _ => false

/-- Number of `setPreempted` reports on the list action in a trace. -/
def countListPreempts (effs : List Effect) : Nat :=
  effs.countP isListPreempted

/-- Number of `setPreempted` reports on the data action in a trace. -/
def countDataPreempts (effs : List Effect) : Nat :=
  effs.countP isDataPreempted

/-- Number of attempted wire command sends in a trace. -/
def countSends (effs : List Effect) : Nat :=
  effs.countP isSentCommand

/-- Whether the character list `needle` is an initial segment of `hay`. -/
def charsLeadWith : List Char → List Char → Bool
  | [], _ => true
  | _ :: _, [] => false
  | c :: cs, d :: ds => c = d && charsLeadWith cs ds

/-- Whether the character list `needle` occurs contiguously inside `hay`. -/
def charsContain (needle : List Char) : List Char → Bool
  | [] => needle.isEmpty
  | d :: ds => charsLeadWith needle (d :: ds) || charsContain needle ds

/-- Whether the string `needle` occurs as a substring of `hay`. -/
def containsText (needle hay : String) : Bool :=
  charsContain needle.toList hay.toList

/-- `handle_log_entry` (lines 99-110): copies the packet fields verbatim
into a published `LogEntry` message. -/
def handle_log_entry (le : LOG_ENTRY) : LogEntry :=
  { id := le.id
    num_logs := le.num_logs
    last_log_num := le.last_log_num
    time_utc := le.time_utc
    size := le.size }

/-- `handle_log_data` (lines 112-126): copies `id` and `ofs`, clamps
`count` to `ld.data.max_size()` when it exceeds it, and copies exactly
`count` bytes from the start of the packet's data array. -/
def handle_log_data (ld : LOG_DATA) : LogData :=
  let count := if ld.count > LOG_DATA_max_size then LOG_DATA_max_size else ld.count
  { id := ld.id, offset := ld.ofs, data := ld.data.take count }

/-- `stopLogTransfer` (lines 170-181): attempts to send `LOG_REQUEST_END`;
on `std::length_error` logs an error and returns `false`, otherwise returns
`true`.  `sendOk` is whether the transport accepts the encoded command. -/
def stopLogTransfer (sendOk : Bool) : Bool × List Effect :=
  if sendOk then
    (true, [Effect.sentLogRequestEnd])
  else
    (false, [Effect.sentLogRequestEnd,
             Effect.logError "Failed to send LOG_REQUEST_END message"])

/-- Result of a ROS service callback: the plugin data after the call, the
filled-in response, the effect trace, and the C++ boolean return value of
the callback (which reaching normally means no exception escaped). -/
structure CallbackResult (Res : Type) where
  plugin : PluginState
  res : Res
  effects : List Effect
  returned : Bool
  deriving DecidableEq

/-- `log_request_list_cb` (lines 128-143): builds a `LOG_REQUEST_LIST`
from the request, sets `res.success = true`, attempts the send, and on
`std::length_error` sets `res.success = false`; always returns `true`.
`sendOk` is whether the transport accepts the encoded command. -/
def log_request_list_cb (s : PluginState) (req : LogRequestListRequest)
    (sendOk : Bool) : CallbackResult LogRequestListResponse :=
  let msg : LOG_REQUEST_LIST := { start := req.start, end_ := req.end_ }
  { plugin := s
    res := { success := sendOk }
    effects := [Effect.sentLogRequestList msg]
    returned := true }

/-- `log_request_data_cb` (lines 145-161): builds a `LOG_REQUEST_DATA`
from the request, sets `res.success = true`, attempts the send, and on
`std::length_error` sets `res.success = false`; always returns `true`. -/
def log_request_data_cb (s : PluginState) (req : LogRequestDataRequest)
    (sendOk : Bool) : CallbackResult LogRequestDataResponse :=
  let msg : LOG_REQUEST_DATA := { id := req.id, ofs := req.offset, count := req.count }
  { plugin := s
    res := { success := sendOk }
    effects := [Effect.sentLogRequestData msg]
    returned := true }

/-- `log_request_end_cb` (lines 163-168): sets `res.success` to the return
of `stopLogTransfer()`; always returns `true`. -/
def log_request_end_cb (s : PluginState) (sendOk : Bool) :
    CallbackResult LogRequestEndResponse :=
  let r := stopLogTransfer sendOk
  { plugin := s
    res := { success := r.1 }
    effects := r.2
    returned := true }

/-- `logListRequested` (lines 183-205), the `get_log_list` goal callback.
`goal` is what `acceptNewGoal()` returns; `dataActive` is
`get_log_action_srv.isActive()`; `listPreemptRequested` is
`get_log_list_action_srv.isPreemptRequested()`; `sendEndOk` is whether the
`LOG_REQUEST_END` sent by the inner `stopLogTransfer()` call encodes.
A null goal is logged and the handler returns at once.  Otherwise
`stopLogTransfer()` runs, an active data goal is reported preempted with
reason "Log list was requested", `state` is set to `State::Idle`, and if
the incoming list goal is itself preempt-requested it is reported preempted
with reason "Log list request was preempted".  No assignment to `state`
other than `State::Idle` occurs anywhere in the handler. -/
def logListRequested (s : PluginState) (goal : Option GetLogListGoal)
    (dataActive listPreemptRequested sendEndOk : Bool) :
    PluginState × List Effect :=
  match goal with
  | none => (s, [Effect.logWarn "Null goal received for get_log_list"])
  | some _ =>
    let stop := stopLogTransfer sendEndOk
    let preemptData :=
      if dataActive then [Effect.dataPreempted false "Log list was requested"] else []
    let s1 : PluginState := { s with state := State.Idle }
    if listPreemptRequested then
      (s1, stop.2 ++ preemptData ++
        [Effect.listPreempted false "Log list request was preempted"])
    else
      (s1, stop.2 ++ preemptData)

/-- `logListRequestPreempted` (lines 207-210): empty body. -/
def logListRequestPreempted (s : PluginState) : PluginState × List Effect :=
  (s, [])

/-- `logRequested` (lines 212-226), the `get_log` goal callback.  The
result of `acceptNewGoal()` is bound but never null-checked and never
used.  If `get_log_list_action_srv.isPreemptRequested()` the pending list
goal is reported preempted with reason "Another log list request was
accepted", and additionally an active data goal is reported preempted with
reason "Log list was requested"; then the handler returns.  Otherwise the
body does nothing.  The handler never assigns `state`. -/
def logRequested (s : PluginState) (goal : Option GetLogGoal)
    (listPreemptRequested dataActive : Bool) : PluginState × List Effect :=
  if listPreemptRequested then
    if dataActive then
      (s, [Effect.listPreempted false "Another log list request was accepted",
           Effect.dataPreempted false "Log list was requested"])
    else
      (s, [Effect.listPreempted false "Another log list request was accepted"])
  else
    (s, [])

/-- `logRequestPreempted` (lines 228-229): empty body. -/
def logRequestPreempted (s : PluginState) : PluginState × List Effect :=
  (s, [])

/-- One externally triggered event: a packet arrival, a synchronous
service call, a goal acceptance, or a preempt hook, each carrying the
values the external host/transport supplies during the call. -/
inductive Event where
  | logEntryPacket (le : LOG_ENTRY)
  | logDataPacket (ld : LOG_DATA)
  | requestListCall (req : LogRequestListRequest) (sendOk : Bool)
  | requestDataCall (req : LogRequestDataRequest) (sendOk : Bool)
  | requestEndCall (sendOk : Bool)
  | listGoalEvent (goal : Option GetLogListGoal)
      (dataActive listPreemptRequested sendEndOk : Bool)
  | dataGoalEvent (goal : Option GetLogGoal)
      (listPreemptRequested dataActive : Bool)
  | listPreemptEvent
  | dataPreemptEvent

/-- Dispatch of one event to its handler, run-to-completion: the updated
plugin data and the effect trace of that one call. -/
def step (s : PluginState) : Event → PluginState × List Effect
  | Event.logEntryPacket le => (s, [Effect.publishedLogEntry (handle_log_entry le)])
  | Event.logDataPacket ld => (s, [Effect.publishedLogData (handle_log_data ld)])
  | Event.requestListCall req sendOk =>
    let r := log_request_list_cb s req sendOk
    (r.plugin, r.effects)
  | Event.requestDataCall req sendOk =>
    let r := log_request_data_cb s req sendOk
    (r.plugin, r.effects)
  | Event.requestEndCall sendOk =>
    let r := log_request_end_cb s sendOk
    (r.plugin, r.effects)
  | Event.listGoalEvent goal dataActive listPreemptRequested sendEndOk =>
    logListRequested s goal dataActive listPreemptRequested sendEndOk
  | Event.dataGoalEvent goal listPreemptRequested dataActive =>
    logRequested s goal listPreemptRequested dataActive
  | Event.listPreemptEvent => logListRequestPreempted s
  | Event.dataPreemptEvent => logRequestPreempted s

/-- The plugin data reached from `s` after processing a sequence of
events one at a time. -/
def run (s : PluginState) : List Event → PluginState
  | [] => s
  | e :: es => run (step s e).1 es

/-- Helper: one step from a plugin state whose `state` field is `Idle`
leaves the `state` field `Idle` (the only assignment to `state` anywhere in
the source is `state = State::Idle` in `logListRequested`). -/
theorem step_state_idle (s : PluginState) (e : Event) (h : s.state = State.Idle) :
    ((step s e).1).state = State.Idle := by
  cases e with
  | logEntryPacket le => exact h
  | logDataPacket ld => exact h
  | requestListCall req sendOk => exact h
  | requestDataCall req sendOk => exact h
  | requestEndCall sendOk => exact h
  | listGoalEvent goal dataActive listPreemptRequested sendEndOk =>
    cases goal with
    | none => exact h
    | some g => cases listPreemptRequested <;> rfl
  | dataGoalEvent goal listPreemptRequested dataActive =>
    cases listPreemptRequested <;> cases dataActive <;> exact h
  | listPreemptEvent => exact h
  | dataPreemptEvent => exact h

/-- Helper: any run from a plugin state whose `state` field is `Idle` ends
with the `state` field `Idle`. -/
theorem run_state_idle (es : List Event) :
    ∀ s : PluginState, s.state = State.Idle → (run s es).state = State.Idle := by
  induction es with
  | nil => intro s h; exact h
  | cons e es ih => intro s h; exact ih _ (step_state_idle s e h)

/-- Helper: no event changes the `logListItems` stack (it is declared and
never touched anywhere in the source). -/
theorem step_logListItems (s : PluginState) (e : Event) :
    ((step s e).1).logListItems = s.logListItems := by
  cases e with
  | logEntryPacket le => rfl
  | logDataPacket ld => rfl
  | requestListCall req sendOk => rfl
  | requestDataCall req sendOk => rfl
  | requestEndCall sendOk => rfl
  | listGoalEvent goal dataActive listPreemptRequested sendEndOk =>
    cases goal with
    | none => rfl
    | some g => cases listPreemptRequested <;> rfl
  | dataGoalEvent goal listPreemptRequested dataActive =>
    cases listPreemptRequested <;> cases dataActive <;> rfl
  | listPreemptEvent => rfl
  | dataPreemptEvent => rfl

/-- Helper: any run leaves the `logListItems` stack unchanged. -/
theorem run_logListItems (es : List Event) :
    ∀ s : PluginState, (run s es).logListItems = s.logListItems := by
  induction es with
  | nil => intro s; rfl
  | cons e es ih =>
    intro s
    calc (run (step s e).1 es).logListItems
        = ((step s e).1).logListItems := ih _
      _ = s.logListItems := step_logListItems s e

/-- Claim C1 (amended): accepting a non-null list goal while the data goal
is active and the incoming list goal is not preempt-requested issues
exactly one preemption report on the data operation, with `success=false`
and a reason containing "requested", and at the end of the handler the
session flag is `Idle` (the handler sets it to `Idle` and never to
`GettingLogList`). -/
theorem listGoal_preempts_activeData_once (s : PluginState) (g : GetLogListGoal)
    (sendEndOk : Bool) :
    countDataPreempts (logListRequested s (some g) true false sendEndOk).2 = 1 ∧
    List.filter isDataPreempted (logListRequested s (some g) true false sendEndOk).2 =
      [Effect.dataPreempted false "Log list was requested"] ∧
    containsText "requested" "Log list was requested" = true ∧
    (logListRequested s (some g) true false sendEndOk).1.state = State.Idle := by
  cases sendEndOk <;> exact ⟨rfl, rfl, by decide, rfl⟩

/-- Claim C1 (counterexample): in the spec scenario — data operation
active, `ListGoal{start=0,end=5}` arrives, not itself preempt-requested —
the session flag at the end of the handler is not `GettingLogList`
(the spec's `ListActive`); the handler leaves it at `Idle`. -/
theorem listGoal_end_state_not_GettingLogList :
    (logListRequested initialState (some { start := 0, end_ := 5 }) true false true).1.state ≠
      State.GettingLogList := by
  decide

/-- Claim C2 (amended): a data-goal acceptance with no list-goal preemption
pending leaves the whole plugin state unchanged and issues no reports or
sends at all; in particular the handler never sets the session flag to
`GettingLogData`. -/
theorem dataGoal_noListPreempt_noop (s : PluginState) (goal : Option GetLogGoal)
    (dataActive : Bool) :
    logRequested s goal false dataActive = (s, []) := rfl

/-- Claim C2 (counterexample): a data goal accepted from the initial state
with no list preemption pending ends with the session flag still `Idle`,
not `GettingLogData` (the spec's `DataActive`). -/
theorem dataGoal_end_state_not_GettingLogData :
    (logRequested initialState (some { id := 1, offset := 0, count := 10 }) false false).1.state ≠
      State.GettingLogData := by
  decide

/-- Claim C3: for every state reachable from the initial `Idle` state by
any sequence of packet, goal, preempt, and synchronous-service events, the
session flag is not `GettingLogList` and `GettingLogData` at the same
time: at most one of the spec's `ListActive`/`DataActive` holds. -/
theorem reachable_state_mutex (es : List Event) :
    ¬((run initialState es).state = State.GettingLogList ∧
      (run initialState es).state = State.GettingLogData) := by
  intro hc
  have h := run_state_idle es initialState rfl
  exact absurd (h.symm.trans hc.1) (by decide)

/-- Claim C4: accepting a list goal that is itself already
preempt-requested issues exactly one preemption report on the list
operation, with `success=false` and a reason containing "preempted" (the
`setPreempted` call completes the goal, so it is not retained as
accepted/active), and the session flag at the end of the handler is
`Idle`. -/
theorem listGoal_alreadyPreempted_rejected (s : PluginState) (g : GetLogListGoal)
    (dataActive sendEndOk : Bool) :
    List.filter isListPreempted (logListRequested s (some g) dataActive true sendEndOk).2 =
      [Effect.listPreempted false "Log list request was preempted"] ∧
    containsText "preempted" "Log list request was preempted" = true ∧
    (logListRequested s (some g) dataActive true sendEndOk).1.state = State.Idle := by
  cases dataActive <;> cases sendEndOk <;> exact ⟨rfl, by decide, rfl⟩

/-- Claim C5: a data-goal acceptance while a list-goal preemption is
pending reports the list goal preempted with `success=false` and reason
"Another log list request was accepted"; additionally, exactly when the
data goal was active, it reports the data goal preempted with
`success=false` and a reason containing "list was requested"; and the
plugin state (in particular the session flag) is left unchanged, so the
flag is not set to `GettingLogData` in this branch. -/
theorem dataGoal_duringListPreempt (s : PluginState) (goal : Option GetLogGoal)
    (dataActive : Bool) :
    List.filter isListPreempted (logRequested s goal true dataActive).2 =
      [Effect.listPreempted false "Another log list request was accepted"] ∧
    List.filter isDataPreempted (logRequested s goal true dataActive).2 =
      (if dataActive then [Effect.dataPreempted false "Log list was requested"] else []) ∧
    containsText "list was requested" "Log list was requested" = true ∧
    (logRequested s goal true dataActive).1 = s := by
  cases dataActive <;> exact ⟨rfl, rfl, by decide, rfl⟩

/-- Claim C6: each synchronous service callback returns a response whose
`success` flag equals whether the command could be encoded and sent (it is
`false` exactly when the transport raises `std::length_error`), the send
is attempted in both cases (the trace records the outbound command), and
the callback itself returns `true` in all cases — no exception escapes to
the caller. -/
theorem sync_request_service_success (s : PluginState) (reqL : LogRequestListRequest)
    (reqD : LogRequestDataRequest) (okL okD okE : Bool) :
    ((log_request_list_cb s reqL okL).res.success = okL ∧
      (log_request_list_cb s reqL okL).effects =
        [Effect.sentLogRequestList { start := reqL.start, end_ := reqL.end_ }] ∧
      (log_request_list_cb s reqL okL).returned = true) ∧
    ((log_request_data_cb s reqD okD).res.success = okD ∧
      (log_request_data_cb s reqD okD).effects =
        [Effect.sentLogRequestData { id := reqD.id, ofs := reqD.offset, count := reqD.count }] ∧
      (log_request_data_cb s reqD okD).returned = true) ∧
    ((log_request_end_cb s okE).res.success = okE ∧
      Effect.sentLogRequestEnd ∈ (log_request_end_cb s okE).effects ∧
      (log_request_end_cb s okE).returned = true) := by
  cases okE <;>
    exact ⟨⟨rfl, rfl, rfl⟩, ⟨rfl, rfl, rfl⟩,
      ⟨rfl, by simp [log_request_end_cb, stopLogTransfer], rfl⟩⟩

/-- Claim C7: for an inbound `LOG_DATA` packet whose data array has the
fixed wire capacity, the published message keeps `id` and `offset`
unchanged and carries exactly `min count capacity` bytes: the full claimed
`count` when it fits, and exactly the payload capacity when the claimed
`count` exceeds it. -/
theorem handle_log_data_clamps (ld : LOG_DATA) (h : ld.data.length = LOG_DATA_max_size) :
    (handle_log_data ld).id = ld.id ∧
    (handle_log_data ld).offset = ld.ofs ∧
    (handle_log_data ld).data.length = min ld.count LOG_DATA_max_size := by
  refine ⟨rfl, rfl, ?_⟩
  have hlen : (handle_log_data ld).data.length =
      min (if ld.count > LOG_DATA_max_size then LOG_DATA_max_size else ld.count)
        ld.data.length := by
    simp [handle_log_data, List.length_take]
  rw [hlen, h]
  by_cases hc : ld.count > LOG_DATA_max_size
  · simp [hc, Nat.min_self, Nat.min_eq_right (Nat.le_of_lt hc)]
  · simp [hc]

/-- Claim C7 (witness): the spec scenario — a packet claiming `count=200`
with a full 90-byte data array yields exactly 90 published bytes, with
`id` and `offset` unchanged. -/
theorem handle_log_data_clamps_witness :
    ({ id := 1, ofs := 0, count := 200, data := List.replicate 90 7 } : LOG_DATA).data.length =
      LOG_DATA_max_size ∧
    ((handle_log_data { id := 1, ofs := 0, count := 200, data := List.replicate 90 7 }).id = 1 ∧
     (handle_log_data { id := 1, ofs := 0, count := 200, data := List.replicate 90 7 }).offset = 0 ∧
     (handle_log_data { id := 1, ofs := 0, count := 200, data := List.replicate 90 7 }).data.length =
       min 200 LOG_DATA_max_size) :=
  ⟨by decide, handle_log_data_clamps _ (by decide)⟩

/-- Claim C8 (amended): a null goal at list-goal acceptance is logged and
ignored — the plugin state is unchanged and the only effect is the warning
log line.  The data-goal handler performs no null check: with a null goal
the plugin state is still unchanged and no wire command is sent, but a
preemption report on the list operation is issued exactly when a list-goal
preemption is pending. -/
theorem null_goal_handling (s : PluginState)
    (dataActive listPreemptRequested sendEndOk : Bool) :
    logListRequested s none dataActive listPreemptRequested sendEndOk =
      (s, [Effect.logWarn "Null goal received for get_log_list"]) ∧
    (logRequested s none listPreemptRequested dataActive).1 = s ∧
    countSends (logRequested s none listPreemptRequested dataActive).2 = 0 ∧
    countListPreempts (logRequested s none listPreemptRequested dataActive).2 =
      (if listPreemptRequested then 1 else 0) := by
  cases listPreemptRequested <;> cases dataActive <;> exact ⟨rfl, rfl, rfl, rfl⟩

/-- Claim C8 (counterexample): with a null goal at data-goal acceptance
while a list-goal preemption is pending, the handler does issue a
preemption report — the claim that a null goal is ignored with no
preemption report fails for the data-goal handler. -/
theorem nullDataGoal_issues_preempt :
    countListPreempts (logRequested initialState none true false).2 ≠ 0 := by
  decide

/-- Claim C9: the synchronous `request_list` and `request_data` service
callbacks return the plugin state unchanged — the session flag and the
`logListItems` stack before the call equal those after it, whether or not
the send succeeds. -/
theorem sync_api_preserves_plugin_state (s : PluginState) (reqL : LogRequestListRequest)
    (reqD : LogRequestDataRequest) (okL okD : Bool) :
    (log_request_list_cb s reqL okL).plugin = s ∧
    (log_request_data_cb s reqD okD).plugin = s :=
  ⟨rfl, rfl⟩

/-- Claim C10: the `logListItems` stack is empty at construction, no
event's handler ever changes it, and hence it is empty in every reachable
state. -/
theorem logListItems_always_empty :
    initialState.logListItems = [] ∧
    (∀ (s : PluginState) (e : Event), ((step s e).1).logListItems = s.logListItems) ∧
    (∀ es : List Event, (run initialState es).logListItems = []) := by
  refine ⟨rfl, step_logListItems, fun es => ?_⟩
  exact (run_logListItems es initialState).trans rfl

end LogTransfer
